import Mathlib

/-!
# Verification of the kaliedo assessment backend's scoring core

Shallow embedding of `app/utils/assessment.py` and the submission flow of
`app/services/assessment_service.py`.

Modelling conventions:
* Python `dict`s with string keys are modelled as association lists
  `List (String × _)` in insertion order; updating an existing key keeps its
  position, inserting a fresh key appends at the end (CPython semantics).
* Python `int` values are `ℤ`; the float arithmetic of
  `get_overall_rating` and of `total_seconds() / 60` is modelled exactly
  over `ℚ` (all quantities the claims touch are exactly representable).
* `random.shuffle` is modelled by quantifying over every permutation of the
  canonical question list (`List.Perm`).
* Python's `int(x)` conversion truncates toward zero; `pyInt` mirrors that.
-/

namespace Kaliedo

/-- `AssessmentResponse` from `app/models/assessment.py`: one submitted answer. -/
structure AResponse where
  question_id : String
  response : ℤ
  domain : String
  question_type : String
deriving DecidableEq

/-- One entry of the question catalog as assembled inside
`get_shuffled_questions`, before the post-shuffle `question_number` is
attached. -/
structure QEntry where
  id : String
  question_text : String
  domain : String
  domain_question_number : ℕ
  type : String
deriving DecidableEq

/-- The `ASSESSMENT_QUESTIONS` module constant: 7 domains, in source (dict
insertion) order, each with its 10 Likert question texts. -/
def assessmentQuestions : List (String × List String) := [
  ("leadership", [
    "I actively influence others toward a shared vision.",
    "I remain calm and focused even during high-pressure decisions.",
    "I mentor or guide others without being asked.",
    "I make decisions aligned with the long-term good of the organisation.",
    "I empower my team to lead initiatives.",
    "I take responsibility for my team\x27s wins and failures alike.",
    "I adapt my leadership style based on the team\x27s needs.",
    "I seek feedback from juniors and peers to improve myself.",
    "I advocate for necessary change, even when unpopular.",
    "I ensure my team is aligned with organisational goals."]),
  ("accountability", [
    "I own my outcomes, even when they fall short.",
    "I meet deadlines consistently without external follow-ups.",
    "I document my decisions and communicate transparently.",
    "I don\x27t make excuses when targets aren\x27t met.",
    "I take initiative when I notice gaps in the process or delivery.",
    "I accept criticism without defensiveness.",
    "I take action without waiting for instructions.",
    "I follow through on what I commit to.",
    "I hold others accountable in a respectful, results-oriented manner.",
    "I proactively ask for feedback on my performance."]),
  ("communication", [
    "I adapt my communication style to different audiences.",
    "I actively listen and ask clarifying questions.",
    "I provide constructive feedback that helps others grow.",
    "I communicate complex ideas in simple, understandable terms.",
    "I handle difficult conversations with empathy and professionalism.",
    "I ensure my messages are clear and actionable.",
    "I use appropriate channels for different types of communication.",
    "I follow up on important communications to ensure understanding.",
    "I share information proactively with relevant stakeholders.",
    "I acknowledge and address communication breakdowns promptly."]),
  ("innovation", [
    "I actively seek new ways to solve problems.",
    "I challenge existing processes and suggest improvements.",
    "I experiment with new approaches and learn from failures.",
    "I stay updated with industry trends and best practices.",
    "I encourage creative thinking in my team.",
    "I take calculated risks to achieve better outcomes.",
    "I adapt quickly to changing circumstances.",
    "I think beyond immediate solutions to long-term impact.",
    "I collaborate with diverse perspectives to generate ideas.",
    "I implement innovative solutions that create value."]),
  ("sales", [
    "I understand customer needs and pain points deeply.",
    "I build genuine relationships with prospects and clients.",
    "I present solutions that clearly address customer challenges.",
    "I handle objections professionally and constructively.",
    "I follow up consistently with prospects and customers.",
    "I exceed customer expectations in service delivery.",
    "I identify opportunities for upselling and cross-selling.",
    "I maintain accurate records of customer interactions.",
    "I collaborate with internal teams to deliver customer value.",
    "I continuously improve my sales skills and knowledge."]),
  ("ethics", [
    "I always act with integrity, even when no one is watching.",
    "I make decisions based on what is right, not what is easy.",
    "I speak up when I see unethical behavior.",
    "I treat everyone with respect and fairness.",
    "I maintain confidentiality of sensitive information.",
    "I avoid conflicts of interest in my professional relationships.",
    "I take responsibility for my mistakes and learn from them.",
    "I follow company policies and procedures consistently.",
    "I consider the impact of my decisions on all stakeholders.",
    "I model ethical behavior for others to follow."]),
  ("collaboration", [
    "I actively contribute to team goals and objectives.",
    "I share knowledge and resources with team members.",
    "I support others in their professional development.",
    "I resolve conflicts constructively and respectfully.",
    "I celebrate team successes and individual contributions.",
    "I adapt my working style to complement team dynamics.",
    "I provide constructive feedback to help team members grow.",
    "I take initiative to help when team members are overwhelmed.",
    "I communicate openly and honestly with team members.",
    "I build trust through consistent, reliable actions."])]

/-- `DESCRIPTIVE_QUESTIONS`: id, text, type, domain of the two free-text items. -/
structure DescQuestion where
  id : String
  question_text : String
  type : String
  domain : String
deriving DecidableEq

def descriptiveQuestions : List DescQuestion := [
  { id := "desc_1",
    question_text := "Describe a situation where you had to collaborate with someone difficult. What did you do, and what was the outcome?",
    type := "descriptive",
    domain := "collaboration" },
  { id := "desc_2",
    question_text := "Share an example where your collaboration significantly impacted a project or team result.",
    type := "descriptive",
    domain := "collaboration" }]

/-- The literal list `["desc_1", "desc_2"]` used throughout the source for
membership tests on question ids. -/
def descIds : List String := ["desc_1", "desc_2"]

/-- The 7 domain keys, in the order the source's `domain_scores` dict
literal declares them (which coincides with `ASSESSMENT_QUESTIONS` order). -/
def domainNames : List String :=
  ["leadership", "accountability", "communication", "innovation", "sales",
   "ethics", "collaboration"]

/-- The canonical (unshuffled) 72-entry catalog that `get_shuffled_questions`
builds before shuffling: a running `question_id` counter starting at 1 over
the domains in fixed iteration order, `domain_question_number` 1-based inside
each domain, followed by the two descriptive entries with
`domain_question_number = 0`. -/
def canonicalQuestions : List QEntry :=
  (assessmentQuestions.foldl
    (fun (acc : List QEntry × ℕ) dq =>
      (acc.1 ++ dq.2.enum.map (fun it =>
        { id := toString (acc.2 + it.1),
          question_text := it.2,
          domain := dq.1,
          domain_question_number := it.1 + 1,
          type := "mcq" }),
       acc.2 + dq.2.length))
    ([], 1)).1
  ++ descriptiveQuestions.map (fun d =>
      { id := d.id,
        question_text := d.question_text,
        domain := d.domain,
        domain_question_number := 0,
        type := d.type })

/-- The canonical id set as the spec describes it: mcq ids "1".."70" then the
two descriptive ids. -/
def canonicalIds : List String :=
  (List.range 70).map (fun i => toString (i + 1)) ++ ["desc_1", "desc_2"]

/-- The post-shuffle numbering step of `get_shuffled_questions`: attach
`question_number = position + 1` in list order. `get_shuffled_questions`
itself is `numberQuestions qs` for `qs` a uniformly random permutation of
`canonicalQuestions`; the randomness is modelled by quantifying over all
permutations. -/
def numberQuestions (qs : List QEntry) : List (QEntry × ℕ) :=
  qs.enum.map (fun p => (p.2, p.1 + 1))

/-- `AssessmentService.get_question_by_id`: regenerate the (shuffled,
numbered) question list and return the first entry whose id matches. The
shuffle outcome is the parameter `qs`. -/
def getQuestionById (qs : List QEntry) (qid : String) : Option (QEntry × ℕ) :=
  (numberQuestions qs).find? (fun p => p.1.id == qid)

/-- The zero-initialised `domain_scores` dict literal of
`calculate_domain_scores`. -/
def initDomainScores : List (String × ℤ) :=
  [("leadership", 0), ("accountability", 0), ("communication", 0),
   ("innovation", 0), ("sales", 0), ("ethics", 0), ("collaboration", 0)]

/-- Body of the response loop of `calculate_domain_scores`: add the value to
the response's domain entry when the domain is a key of the dict and the
question id is not descriptive, otherwise leave the dict unchanged. -/
def domainScoreStep (d : List (String × ℤ)) (r : AResponse) : List (String × ℤ) :=
  if (d.any (fun p => p.1 == r.domain)) && !(descIds.contains r.question_id) then
    d.map (fun p => if p.1 == r.domain then (p.1, p.2 + r.response) else p)
  else d

/-- `calculate_domain_scores`: start from the literal 7-key zero dict and add
each response's value to its domain's entry, skipping the two descriptive
question ids; a response whose domain is not a key is ignored. -/
def calculateDomainScores (responses : List AResponse) : List (String × ℤ) :=
  responses.foldl domainScoreStep initDomainScores

/-- Python dict assignment `d[k] = v` on a string-keyed dict in insertion
order: overwrite in place when the key exists, append otherwise. -/
def dictInsert (d : List (String × ℤ)) (k : String) (v : ℤ) : List (String × ℤ) :=
  if d.any (fun p => p.1 == k) then
    d.map (fun p => if p.1 == k then (p.1, v) else p)
  else d ++ [(k, v)]

/-- Body of the response loop of `calculate_descriptive_scores`. -/
def descriptiveScoreStep (d : List (String × ℤ)) (r : AResponse) : List (String × ℤ) :=
  if descIds.contains r.question_id then dictInsert d r.question_id r.response
  else d

/-- `calculate_descriptive_scores`: collect `question_id ↦ response` for the
responses whose id is one of the two descriptive ids, starting from the
empty dict. -/
def calculateDescriptiveScores (responses : List AResponse) : List (String × ℤ) :=
  responses.foldl descriptiveScoreStep []

/-- `calculate_total_score`: `sum(domain_scores.values())`. -/
def calculateTotalScore (domainScores : List (String × ℤ)) : ℤ :=
  (domainScores.map Prod.snd).sum

/-- `get_rating_for_score`: the 5-band threshold chain. The source annotates
the argument as `int` but `get_overall_rating` passes a float, so the
embedding takes `ℚ`. -/
def getRatingForScore (score : ℚ) : String :=
  if score ≥ 44 then "exemplary"
  else if score ≥ 36 then "strength"
  else if score ≥ 28 then "developing"
  else if score ≥ 20 then "weakness"
  else "critical"

/-- `get_overall_rating`: average the domain scores over the number of keys,
multiply by 10, and band the result. -/
def getOverallRating (domainScores : List (String × ℤ)) : String :=
  let total : ℤ := (domainScores.map Prod.snd).sum
  let average : ℚ := (total : ℚ) / (domainScores.length : ℚ)
  getRatingForScore (average * 10)

/-- `get_domain_ratings`: band each domain score. -/
def getDomainRatings (domainScores : List (String × ℤ)) : List (String × String) :=
  domainScores.map (fun p => (p.1, getRatingForScore (p.2 : ℚ)))

/-- `set(ASSESSMENT_QUESTIONS.keys())`, the expected-domain set of the
validator, as the key list of the catalog. -/
def expectedDomains : List String := assessmentQuestions.map Prod.fst

/-- `validate_responses`: the source's early-`return False` guard chain,
written as the equivalent short-circuit conjunction. Python's `set` equality
`set(domains) == set(expected)` is the mutual-inclusion test in the middle. -/
def validateResponses (responses : List AResponse) : Bool :=
  let mcq_responses := responses.filter (fun r => !(descIds.contains r.question_id))
  let descriptive_responses := responses.filter (fun r => descIds.contains r.question_id)
  (mcq_responses.length == 70)
  && (descriptive_responses.length == 2)
  && (mcq_responses.all (fun r => expectedDomains.contains r.domain)
      && expectedDomains.all (fun d => mcq_responses.any (fun r => r.domain == d)))
  && mcq_responses.all (fun r => decide (1 ≤ r.response ∧ r.response ≤ 5))
  && descriptive_responses.all (fun r => decide (0 ≤ r.response ∧ r.response ≤ 3))

/-- Python `int(x)` applied to a real quantity: truncation toward zero. -/
def pyInt (q : ℚ) : ℤ := if 0 ≤ q then ⌊q⌋ else ⌈q⌉

/-- The document `submit_assessment_with_user_data` inserts into the result
collection (timestamps as rational epoch seconds). -/
structure StoredResult where
  user_data : List (String × String)
  responses : List AResponse
  domain_scores : List (String × ℤ)
  descriptive_scores : List (String × ℤ)
  total_score : ℤ
  overall_rating : String
  started_at : ℚ
  completed_at : ℚ
  total_time_minutes : ℤ
deriving DecidableEq

/-- `AssessmentService.submit_assessment_with_user_data`: reject with HTTP
400 when validation fails (nothing is computed or stored), otherwise score
and return the exact record handed to `insert_one`. `Except.error` carries
the HTTP status code; `Except.ok` carries the persisted document. -/
def submitAssessment (user_data : List (String × String))
    (responses : List AResponse) (started_at completed_at : ℚ) :
    Except ℕ StoredResult :=
  if !(validateResponses responses) then Except.error 400
  else
    let domain_scores := calculateDomainScores responses
    let descriptive_scores := calculateDescriptiveScores responses
    let total_score := calculateTotalScore domain_scores
    let overall_rating := getOverallRating domain_scores
    let time_diff := completed_at - started_at
    let total_time_minutes := pyInt (time_diff / 60)
    Except.ok
      { user_data := user_data
        responses := responses
        domain_scores := domain_scores
        descriptive_scores := descriptive_scores
        total_score := total_score
        overall_rating := overall_rating
        started_at := started_at
        completed_at := completed_at
        total_time_minutes := total_time_minutes }

/-! ## Concrete inputs used by counterexamples and witnesses -/

/-- One value-1 answer per canonical mcq question. -/
def allOnesMcq : List AResponse :=
  (canonicalQuestions.filter (fun q => q.type == "mcq")).map
    (fun q => { question_id := q.id, response := 1, domain := q.domain,
                question_type := "mcq" })

/-- A full submission answering 1 on every mcq question and 1 on both
descriptive questions. -/
def allOnesResponses : List AResponse :=
  allOnesMcq ++
    [{ question_id := "desc_1", response := 1, domain := "collaboration",
       question_type := "descriptive" },
     { question_id := "desc_2", response := 1, domain := "collaboration",
       question_type := "descriptive" }]

/-- First of two duplicate `desc_1` answers. -/
def dupDescFirst : AResponse :=
  { question_id := "desc_1", response := 1, domain := "collaboration",
    question_type := "descriptive" }

/-- Second of two duplicate `desc_1` answers, with a different value. -/
def dupDescSecond : AResponse :=
  { question_id := "desc_1", response := 2, domain := "collaboration",
    question_type := "descriptive" }

/-- A submission whose two descriptive answers both claim `desc_1`. -/
def dupDescResponses : List AResponse :=
  allOnesMcq ++ [dupDescFirst, dupDescSecond]

/-- Severity index of a rating band, 0 = best ("exemplary") through
4 = worst ("critical"); used to state monotonicity of the banding. -/
def ratingSeverity (r : String) : ℕ :=
  if r = "exemplary" then 0
  else if r = "strength" then 1
  else if r = "developing" then 2
  else if r = "weakness" then 3
  else 4

set_option maxRecDepth 100000

example : validateResponses allOnesResponses = true := by decide
example : calculateDomainScores allOnesResponses = domainNames.map (fun d => (d, 10)) := by decide
example : getOverallRating (calculateDomainScores allOnesResponses) = "exemplary" := by
  have h : calculateDomainScores allOnesResponses = domainNames.map (fun d => (d, 10)) := by
    decide
  rw [h]
  unfold getOverallRating getRatingForScore
  norm_num [domainNames]
example : validateResponses dupDescResponses = true := by decide
example : calculateDescriptiveScores dupDescResponses = [("desc_1", 2)] := by decide
example : canonicalQuestions.map QEntry.id = canonicalIds := by decide
example : canonicalIds.Nodup := by decide
example : validateResponses [] = false := by decide

/-! ## Helper lemmas -/

/-- The banding function agrees with the integer threshold chain on integer
scores. -/
lemma getRatingForScore_intCast (s : ℤ) :
    getRatingForScore (s : ℚ) =
      (if 44 ≤ s then "exemplary"
       else if 36 ≤ s then "strength"
       else if 28 ≤ s then "developing"
       else if 20 ≤ s then "weakness"
       else "critical") := by
  have h44 : ((44 : ℚ) ≤ (s : ℚ)) ↔ (44 : ℤ) ≤ s := by exact_mod_cast Iff.rfl
  have h36 : ((36 : ℚ) ≤ (s : ℚ)) ↔ (36 : ℤ) ≤ s := by exact_mod_cast Iff.rfl
  have h28 : ((28 : ℚ) ≤ (s : ℚ)) ↔ (28 : ℤ) ≤ s := by exact_mod_cast Iff.rfl
  have h20 : ((20 : ℚ) ≤ (s : ℚ)) ↔ (20 : ℤ) ≤ s := by exact_mod_cast Iff.rfl
  unfold getRatingForScore
  simp only [ge_iff_le, h44, h36, h28, h20]

/-! ## Claims -/

/-- Claim C3: `get_rating_for_score` maps every integer score into exactly
the banded rating with boundaries 44/36/28/20, the band is monotone in the
score (a higher score never yields a more severe rating), and the eight
boundary scores map as listed. -/
theorem claim_C3_rating_bands (s t : ℤ) :
    ((44 ≤ s → getRatingForScore (s : ℚ) = "exemplary")
      ∧ (36 ≤ s ∧ s ≤ 43 → getRatingForScore (s : ℚ) = "strength")
      ∧ (28 ≤ s ∧ s ≤ 35 → getRatingForScore (s : ℚ) = "developing")
      ∧ (20 ≤ s ∧ s ≤ 27 → getRatingForScore (s : ℚ) = "weakness")
      ∧ (s ≤ 19 → getRatingForScore (s : ℚ) = "critical"))
    ∧ (s ≤ t →
        ratingSeverity (getRatingForScore (t : ℚ)) ≤
          ratingSeverity (getRatingForScore (s : ℚ)))
    ∧ (getRatingForScore 44 = "exemplary" ∧ getRatingForScore 43 = "strength"
      ∧ getRatingForScore 36 = "strength" ∧ getRatingForScore 35 = "developing"
      ∧ getRatingForScore 28 = "developing" ∧ getRatingForScore 27 = "weakness"
      ∧ getRatingForScore 20 = "weakness" ∧ getRatingForScore 19 = "critical") := by
  refine ⟨⟨?_, ?_, ?_, ?_, ?_⟩, ?_, ?_⟩
  · intro h
    rw [getRatingForScore_intCast]
    split_ifs <;> first | rfl | omega
  · intro h
    rw [getRatingForScore_intCast]
    split_ifs <;> first | rfl | omega
  · intro h
    rw [getRatingForScore_intCast]
    split_ifs <;> first | rfl | omega
  · intro h
    rw [getRatingForScore_intCast]
    split_ifs <;> first | rfl | omega
  · intro h
    rw [getRatingForScore_intCast]
    split_ifs with h1 <;> first | rfl | omega
  · intro h
    rw [getRatingForScore_intCast, getRatingForScore_intCast]
    split_ifs <;> first | decide | omega
  · unfold getRatingForScore
    norm_num

/-- Witness for C3 at concrete scores 44 and 19. -/
theorem claim_C3_rating_bands_witness :
    ((44 : ℤ) ≤ 44 ∧ getRatingForScore ((44 : ℤ) : ℚ) = "exemplary")
    ∧ ((19 : ℤ) ≤ 44 ∧
        ratingSeverity (getRatingForScore ((44 : ℤ) : ℚ)) ≤
          ratingSeverity (getRatingForScore ((19 : ℤ) : ℚ))) :=
  ⟨⟨by norm_num, (claim_C3_rating_bands 44 44).1.1 (by norm_num)⟩,
   ⟨by norm_num, (claim_C3_rating_bands 19 44).2.1 (by norm_num)⟩⟩

/-- Claim C9: whenever validation fails, the submission is rejected with
HTTP 400 and nothing is scored or handed to the result repository: the
outcome is `Except.error 400`, which carries no `StoredResult`. -/
theorem claim_C9_invalid_submission_rejected
    (user_data : List (String × String)) (responses : List AResponse)
    (started_at completed_at : ℚ)
    (h : validateResponses responses = false) :
    submitAssessment user_data responses started_at completed_at =
      Except.error 400 := by
  unfold submitAssessment
  rw [h]
  rfl

/-- Witness for C9 at the empty response list. -/
theorem claim_C9_witness :
    validateResponses [] = false ∧
      submitAssessment [] [] 0 0 = Except.error 400 :=
  ⟨by decide, claim_C9_invalid_submission_rejected [] [] 0 0 (by decide)⟩

/-- Claim C8: under the precondition `completed_at ≥ started_at`, the stored
`total_time_minutes` is the floor of the elapsed seconds divided by 60
(Python's `int()` truncation coincides with floor on the nonnegative
difference). -/
theorem claim_C8_total_time_minutes
    (user_data : List (String × String)) (responses : List AResponse)
    (started_at completed_at : ℚ)
    (hle : started_at ≤ completed_at)
    (hv : validateResponses responses = true) :
    (submitAssessment user_data responses started_at completed_at).map
        StoredResult.total_time_minutes =
      Except.ok ⌊(completed_at - started_at) / 60⌋ := by
  have h0 : (0 : ℚ) ≤ (completed_at - started_at) / 60 :=
    div_nonneg (sub_nonneg.mpr hle) (by norm_num)
  unfold submitAssessment
  rw [hv]
  show Except.ok (pyInt ((completed_at - started_at) / 60)) = _
  rw [pyInt, if_pos h0]

/-- Mapping a key-preserving function over a dict leaves the key list
unchanged. -/
lemma map_fst_map_of_fst_eq {g : String × ℤ → String × ℤ}
    (hg : ∀ p, (g p).1 = p.1) (d : List (String × ℤ)) :
    (d.map g).map Prod.fst = d.map Prod.fst := by
  induction d with
  | nil => rfl
  | cons p l ih => simp only [List.map_cons, ih, hg]

/-- One step of the domain-score loop never changes the dict's key list. -/
lemma domainScoreStep_keys (d : List (String × ℤ)) (r : AResponse) :
    (domainScoreStep d r).map Prod.fst = d.map Prod.fst := by
  unfold domainScoreStep
  split_ifs with h
  · exact map_fst_map_of_fst_eq (fun p => by split <;> rfl) d
  · rfl

/-- Folding the domain-score loop never changes the dict's key list. -/
lemma foldl_domainScoreStep_keys (responses : List AResponse)
    (d : List (String × ℤ)) :
    (responses.foldl domainScoreStep d).map Prod.fst = d.map Prod.fst := by
  induction responses generalizing d with
  | nil => rfl
  | cons r rs ih => rw [List.foldl_cons, ih, domainScoreStep_keys]

/-- A left fold whose step ignores elements failing `p` only sees the
`p`-filtered list. -/
lemma foldl_eq_foldl_filter {α β : Type} (f : β → α → β) (p : α → Bool)
    (hf : ∀ b a, p a = false → f b a = b) :
    ∀ (l : List α) (b : β), l.foldl f b = (l.filter p).foldl f b := by
  intro l
  induction l with
  | nil => intro _; rfl
  | cons a l ih =>
    intro b
    rw [List.foldl_cons, List.filter_cons]
    cases hp : p a
    · rw [hf b a hp, if_neg (by simp [hp])]
      exact ih b
    · rw [if_pos (by simp [hp]), List.foldl_cons]
      exact ih (f b a)

/-- The domain-score loop ignores responses with a descriptive question id. -/
lemma calculateDomainScores_filter (responses : List AResponse) :
    calculateDomainScores responses =
      calculateDomainScores
        (responses.filter (fun r => !(descIds.contains r.question_id))) := by
  unfold calculateDomainScores
  exact foldl_eq_foldl_filter domainScoreStep _
    (fun d r h => by
      unfold domainScoreStep
      simp only [Bool.not_eq_false'] at h
      rw [h]
      simp)
    responses initDomainScores

/-- The descriptive-score loop ignores responses without a descriptive
question id. -/
lemma calculateDescriptiveScores_filter (responses : List AResponse) :
    calculateDescriptiveScores responses =
      calculateDescriptiveScores
        (responses.filter (fun r => descIds.contains r.question_id)) := by
  unfold calculateDescriptiveScores
  exact foldl_eq_foldl_filter descriptiveScoreStep _
    (fun d r h => by unfold descriptiveScoreStep; rw [h]; simp)
    responses []

/-- Folding the descriptive-score loop only ever adds descriptive ids as
keys. -/
lemma foldl_descriptiveScoreStep_keys (responses : List AResponse) :
    ∀ d : List (String × ℤ),
      ((d.map Prod.fst).all (fun k => descIds.contains k) = true) →
      (((responses.foldl descriptiveScoreStep d).map Prod.fst).all
          (fun k => descIds.contains k) = true) := by
  induction responses with
  | nil => intro d h; exact h
  | cons r rs ih =>
    intro d h
    rw [List.foldl_cons]
    apply ih
    unfold descriptiveScoreStep
    split_ifs with hc
    · unfold dictInsert
      split_ifs with he
      · rw [map_fst_map_of_fst_eq (fun p => by split <;> rfl) d]
        exact h
      · rw [List.map_append, List.all_append]
        simp only [h, List.map_cons, List.map_nil, List.all_cons, List.all_nil,
          Bool.and_true, Bool.true_and]
        exact hc
    · exact h

/-- Claim C5: for every response list the mapping returned by
`calculate_domain_scores` has exactly the 7 fixed domain names as keys, and
`calculate_total_score` of that mapping is the sum of its values. -/
theorem claim_C5_domain_keys_and_total (responses : List AResponse) :
    (calculateDomainScores responses).map Prod.fst = domainNames
    ∧ calculateTotalScore (calculateDomainScores responses) =
        ((calculateDomainScores responses).map Prod.snd).sum := by
  constructor
  · rw [calculateDomainScores, foldl_domainScoreStep_keys]
    rfl
  · rfl

/-- Claim C4: responses with a descriptive question id contribute nothing to
`calculate_domain_scores` (dropping them changes nothing), their values live
only in `calculate_descriptive_scores` (which ignores everything else), and
every key of the descriptive-score mapping is a descriptive question id. -/
theorem claim_C4_descriptive_isolated (responses : List AResponse) :
    calculateDomainScores responses =
      calculateDomainScores
        (responses.filter (fun r => !(descIds.contains r.question_id)))
    ∧ calculateDescriptiveScores responses =
      calculateDescriptiveScores
        (responses.filter (fun r => descIds.contains r.question_id))
    ∧ ((calculateDescriptiveScores responses).map Prod.fst).all
        (fun k => descIds.contains k) = true :=
  ⟨calculateDomainScores_filter responses,
   calculateDescriptiveScores_filter responses,
   foldl_descriptiveScoreStep_keys responses [] rfl⟩

/-- Characterization of `validate_responses` as the conjunction of its five
rules, in propositional form. -/
lemma validateResponses_iff (responses : List AResponse) :
    validateResponses responses = true ↔
      ((responses.filter (fun r => !(descIds.contains r.question_id))).length = 70
      ∧ (responses.filter (fun r => descIds.contains r.question_id)).length = 2
      ∧ (∀ r ∈ responses.filter (fun r => !(descIds.contains r.question_id)),
            r.domain ∈ domainNames)
      ∧ (∀ d ∈ domainNames,
            ∃ r ∈ responses.filter (fun r => !(descIds.contains r.question_id)),
              r.domain = d)
      ∧ (∀ r ∈ responses.filter (fun r => !(descIds.contains r.question_id)),
            1 ≤ r.response ∧ r.response ≤ 5)
      ∧ (∀ r ∈ responses.filter (fun r => descIds.contains r.question_id),
            0 ≤ r.response ∧ r.response ≤ 3)) := by
  have hexp : expectedDomains = domainNames := rfl
  unfold validateResponses
  rw [hexp]
  simp only [Bool.and_eq_true, List.all_eq_true, List.any_eq_true, beq_iff_eq,
    decide_eq_true_eq, List.elem_iff, List.contains_eq_any_beq]
  constructor
  · rintro ⟨⟨⟨⟨h1, h2⟩, h3, h4⟩, h5⟩, h6⟩
    refine ⟨h1, h2, ?_, ?_, h5, h6⟩
    · intro r hr
      have := h3 r hr
      simpa [List.any_eq_true, beq_iff_eq, eq_comm] using this
    · intro d hd
      obtain ⟨r, hr, hrd⟩ := h4 d hd
      exact ⟨r, hr, hrd⟩
  · rintro ⟨h1, h2, h3, h4, h5, h6⟩
    refine ⟨⟨⟨⟨h1, h2⟩, ?_, ?_⟩, h5⟩, h6⟩
    · intro r hr
      have := h3 r hr
      simpa [List.any_eq_true, beq_iff_eq, eq_comm] using this
    · intro d hd
      obtain ⟨r, hr, hrd⟩ := h4 d hd
      exact ⟨r, hr, hrd⟩

/-- Claim C2: `validate_responses` returns true exactly when all five rules
hold: 70 non-descriptive responses, 2 descriptive responses, the mcq domain
set is exactly the 7 fixed domains, every mcq value lies in [1,5], and every
descriptive value lies in [0,3]. -/
theorem claim_C2_validate_characterization (responses : List AResponse) :
    validateResponses responses = true ↔
      ((responses.filter (fun r => !(descIds.contains r.question_id))).length = 70
      ∧ (responses.filter (fun r => descIds.contains r.question_id)).length = 2
      ∧ (∀ r ∈ responses.filter (fun r => !(descIds.contains r.question_id)),
            r.domain ∈ domainNames)
      ∧ (∀ d ∈ domainNames,
            ∃ r ∈ responses.filter (fun r => !(descIds.contains r.question_id)),
              r.domain = d)
      ∧ (∀ r ∈ responses.filter (fun r => !(descIds.contains r.question_id)),
            1 ≤ r.response ∧ r.response ≤ 5)
      ∧ (∀ r ∈ responses.filter (fun r => descIds.contains r.question_id),
            0 ≤ r.response ∧ r.response ≤ 3)) :=
  validateResponses_iff responses

/-- Witness for C2: the characterization instantiated at the complete
all-ones submission, whose validation succeeds. -/
theorem claim_C2_witness :
    validateResponses allOnesResponses = true :=
  (claim_C2_validate_characterization allOnesResponses).mpr
    ⟨by decide, by decide, by decide, by decide, by decide, by decide⟩

/-- Witness for C8: an all-ones submission taking 150 seconds is stored with
`total_time_minutes = 2`. -/
theorem claim_C8_witness :
    ((0 : ℚ) ≤ 150 ∧ validateResponses allOnesResponses = true)
    ∧ (submitAssessment [] allOnesResponses 0 150).map
          StoredResult.total_time_minutes =
        Except.ok ⌊((150 : ℚ) - 0) / 60⌋
    ∧ ⌊((150 : ℚ) - 0) / 60⌋ = 2 :=
  ⟨⟨by norm_num, by decide⟩,
   claim_C8_total_time_minutes [] allOnesResponses 0 150 (by norm_num) (by decide),
   by norm_num [Int.floor_eq_iff]⟩

/-- Claim C10: the validator counts descriptive responses without checking
which descriptive id each carries or that ids are unique: a set whose two
descriptive responses both claim `desc_1` (and none claims `desc_2`) passes
validation whenever the mcq part is complete and in range, and
`calculate_descriptive_scores` then holds the single key `desc_1` mapped to
the value of the later of the two responses in list order. -/
theorem claim_C10_duplicate_desc1
    (responses : List AResponse) (r1 r2 : AResponse)
    (hdesc : responses.filter (fun r => descIds.contains r.question_id) = [r1, r2])
    (h1 : r1.question_id = "desc_1") (h2 : r2.question_id = "desc_1")
    (hlen : (responses.filter (fun r => !(descIds.contains r.question_id))).length = 70)
    (hall : ∀ r ∈ responses.filter (fun r => !(descIds.contains r.question_id)),
        r.domain ∈ domainNames)
    (hcov : ∀ d ∈ domainNames,
        ∃ r ∈ responses.filter (fun r => !(descIds.contains r.question_id)),
          r.domain = d)
    (hrange : ∀ r ∈ responses.filter (fun r => !(descIds.contains r.question_id)),
        1 ≤ r.response ∧ r.response ≤ 5)
    (hv1 : 0 ≤ r1.response ∧ r1.response ≤ 3)
    (hv2 : 0 ≤ r2.response ∧ r2.response ≤ 3) :
    validateResponses responses = true
    ∧ calculateDescriptiveScores responses = [("desc_1", r2.response)] := by
  constructor
  · rw [validateResponses_iff]
    refine ⟨hlen, by rw [hdesc]; rfl, hall, hcov, hrange, ?_⟩
    rw [hdesc]
    intro r hr
    simp only [List.mem_cons, List.mem_singleton, List.not_mem_nil, or_false] at hr
    rcases hr with rfl | rfl
    · exact hv1
    · exact hv2
  · rw [calculateDescriptiveScores_filter, hdesc]
    unfold calculateDescriptiveScores
    rw [List.foldl_cons, List.foldl_cons, List.foldl_nil]
    unfold descriptiveScoreStep dictInsert
    rw [h1, h2]
    simp [descIds]

/-- Witness for C10: the concrete duplicate-`desc_1` submission (all mcq
answers 1, descriptive values 1 then 2) validates and scores to the single
entry `desc_1 ↦ 2`. -/
theorem claim_C10_witness :
    (dupDescResponses.filter (fun r => descIds.contains r.question_id) =
        [dupDescFirst, dupDescSecond]
      ∧ dupDescFirst.question_id = "desc_1"
      ∧ dupDescSecond.question_id = "desc_1")
    ∧ validateResponses dupDescResponses = true
    ∧ calculateDescriptiveScores dupDescResponses = [("desc_1", dupDescSecond.response)] :=
  ⟨⟨by decide, rfl, rfl⟩,
   claim_C10_duplicate_desc1 dupDescResponses dupDescFirst dupDescSecond
     (by decide) rfl rfl (by decide) (by decide) (by decide) (by decide)
     (by decide) (by decide)⟩

/-- Claim C1 is false on the code: on the all-ones submission (which
validates, has every domain score 10, and every domain rating "critical")
`get_overall_rating` does not return "critical" — the function bands
`average × 10 = (70/7) × 10 = 100`, not the average itself. -/
theorem claim_C1_counterexample :
    validateResponses allOnesResponses = true
    ∧ calculateDomainScores allOnesResponses = domainNames.map (fun d => (d, 10))
    ∧ getDomainRatings (calculateDomainScores allOnesResponses) =
        domainNames.map (fun d => (d, "critical"))
    ∧ getOverallRating (calculateDomainScores allOnesResponses) ≠ "critical" := by
  have hds : calculateDomainScores allOnesResponses =
      domainNames.map (fun d => (d, 10)) := by decide
  have h10 : getRatingForScore (10 : ℚ) = "critical" := by
    unfold getRatingForScore; norm_num
  have hov : getOverallRating (domainNames.map (fun d => (d, 10))) = "exemplary" := by
    unfold getOverallRating getRatingForScore
    norm_num [domainNames]
  refine ⟨by decide, hds, ?_, ?_⟩
  · rw [hds]
    unfold getDomainRatings
    simp [domainNames, h10]
  · rw [hds, hov]
    decide

/-- Claim C1 (amended): on every validated all-ones submission each domain
score is 10 and each domain rating is "critical", but the overall rating is
"exemplary": `get_overall_rating` bands `average(domain_scores) × 10`, and
10 × 10 = 100 falls in the top band. Stated at the canonical all-ones
submission. -/
theorem claim_C1_amended_all_ones :
    validateResponses allOnesResponses = true
    ∧ calculateDomainScores allOnesResponses = domainNames.map (fun d => (d, 10))
    ∧ getDomainRatings (calculateDomainScores allOnesResponses) =
        domainNames.map (fun d => (d, "critical"))
    ∧ getOverallRating (calculateDomainScores allOnesResponses) = "exemplary" := by
  have hds : calculateDomainScores allOnesResponses =
      domainNames.map (fun d => (d, 10)) := by decide
  have h10 : getRatingForScore (10 : ℚ) = "critical" := by
    unfold getRatingForScore; norm_num
  refine ⟨by decide, hds, ?_, ?_⟩
  · rw [hds]
    unfold getDomainRatings
    simp [domainNames, h10]
  · rw [hds]
    unfold getOverallRating getRatingForScore
    norm_num [domainNames]

/-- The canonical catalog's id column is the spec's id list "1".."70",
"desc_1", "desc_2". -/
lemma canonicalQuestions_map_id :
    canonicalQuestions.map QEntry.id = canonicalIds := by decide

/-- The canonical id list has no duplicates. -/
lemma canonicalIds_nodup : canonicalIds.Nodup := by decide

/-- The canonical catalog has 72 entries. -/
lemma canonicalQuestions_length : canonicalQuestions.length = 72 := by decide

/-- The numbering step keeps the question entries themselves unchanged. -/
lemma numberQuestions_map_fst (qs : List QEntry) :
    (numberQuestions qs).map Prod.fst = qs := by
  unfold numberQuestions
  rw [List.map_map]
  have hcomp : (Prod.fst ∘ fun p : ℕ × QEntry => (p.2, p.1 + 1)) =
      (Prod.snd : ℕ × QEntry → QEntry) := by
    funext p; rfl
  rw [hcomp, List.enum_eq_enumFrom, List.enumFrom_map_snd]

/-- Numbering an enumeration starting at `n` produces the contiguous
sequence `n+1, n+2, …`. -/
lemma enumFrom_number_map_snd :
    ∀ (qs : List QEntry) (n : ℕ),
      (((qs.enumFrom n).map (fun p => (p.2, p.1 + 1))).map Prod.snd) =
        List.range' (n + 1) qs.length := by
  intro qs
  induction qs with
  | nil => intro n; rfl
  | cons q qs ih =>
    intro n
    rw [List.enumFrom_cons]
    simp only [List.map_cons, List.length_cons, List.range'_succ]
    rw [ih (n + 1)]

/-- The numbers attached by `numberQuestions` are exactly 1..length in list
order. -/
lemma numberQuestions_map_snd (qs : List QEntry) :
    (numberQuestions qs).map Prod.snd = List.range' 1 qs.length := by
  unfold numberQuestions
  rw [List.enum_eq_enumFrom]
  exact enumFrom_number_map_snd qs 0

/-- Claim C6: every shuffle outcome of `get_shuffled_questions` is a
permutation of the 72-entry canonical catalog — its id column is a
permutation of the duplicate-free canonical id set ("1".."70", "desc_1",
"desc_2") and its `question_number` column is exactly 1..72 in list order. -/
theorem claim_C6_shuffle_permutation (qs : List QEntry)
    (h : qs.Perm canonicalQuestions) :
    ((numberQuestions qs).map (fun p => p.1.id)).Perm canonicalIds
    ∧ canonicalIds.Nodup
    ∧ (numberQuestions qs).map Prod.snd = List.range' 1 72 := by
  have hids : (numberQuestions qs).map (fun p => p.1.id) = qs.map QEntry.id := by
    calc (numberQuestions qs).map (fun p => p.1.id)
        = ((numberQuestions qs).map Prod.fst).map QEntry.id := by
          rw [List.map_map]; rfl
      _ = qs.map QEntry.id := by rw [numberQuestions_map_fst]
  refine ⟨?_, by decide, ?_⟩
  · rw [hids, ← canonicalQuestions_map_id]
    exact h.map QEntry.id
  · rw [numberQuestions_map_snd, h.length_eq, canonicalQuestions_length]

/-- Witness for C6 at the identity shuffle. -/
theorem claim_C6_witness :
    ((numberQuestions canonicalQuestions).map (fun p => p.1.id)).Perm canonicalIds
    ∧ canonicalIds.Nodup
    ∧ (numberQuestions canonicalQuestions).map Prod.snd = List.range' 1 72 :=
  claim_C6_shuffle_permutation canonicalQuestions (List.Perm.refl _)

/-- `find?` is permutation-invariant when at most one element satisfies the
predicate. -/
lemma find?_congr_of_unique {α : Type} (p : α → Bool) {l l' : List α}
    (h : l.Perm l')
    (hu : ∀ x ∈ l, ∀ y ∈ l, p x = true → p y = true → x = y) :
    l.find? p = l'.find? p := by
  cases hl : l.find? p with
  | none =>
    rw [List.find?_eq_none] at hl
    symm
    rw [List.find?_eq_none]
    intro x hx
    exact hl x (h.mem_iff.mpr hx)
  | some x =>
    have hpx : p x = true := List.find?_some hl
    have hxl : x ∈ l := List.mem_of_find?_eq_some hl
    cases hl' : l'.find? p with
    | none =>
      rw [List.find?_eq_none] at hl'
      exact absurd hpx (hl' x (h.mem_iff.mp hxl))
    | some y =>
      have hpy : p y = true := List.find?_some hl'
      have hyl : y ∈ l := h.mem_iff.mpr (List.mem_of_find?_eq_some hl')
      rw [hu x hxl y hyl hpx hpy]

/-- Searching the numbered list by id and dropping the number is searching
the unnumbered list. -/
lemma find?_enumFrom_number (qid : String) :
    ∀ (qs : List QEntry) (n : ℕ),
      (((qs.enumFrom n).map (fun p => (p.2, p.1 + 1))).find?
          (fun p => p.1.id == qid)).map Prod.fst =
        qs.find? (fun q => q.id == qid) := by
  intro qs
  induction qs with
  | nil => intro n; rfl
  | cons q qs ih =>
    intro n
    rw [List.enumFrom_cons]
    simp only [List.map_cons]
    by_cases hq : q.id = qid
    · have hL : List.find? (fun p : QEntry × ℕ => p.1.id == qid)
          ((q, n + 1) :: ((qs.enumFrom (n + 1)).map (fun p => (p.2, p.1 + 1)))) =
            some (q, n + 1) :=
        List.find?_cons_of_pos _ (by simp [hq])
      have hR : List.find? (fun q : QEntry => q.id == qid) (q :: qs) = some q :=
        List.find?_cons_of_pos _ (by simp [hq])
      rw [hL, hR]
      rfl
    · have hL : List.find? (fun p : QEntry × ℕ => p.1.id == qid)
          ((q, n + 1) :: ((qs.enumFrom (n + 1)).map (fun p => (p.2, p.1 + 1)))) =
            List.find? (fun p : QEntry × ℕ => p.1.id == qid)
              ((qs.enumFrom (n + 1)).map (fun p => (p.2, p.1 + 1))) :=
        List.find?_cons_of_neg _ (by simp [hq])
      have hR : List.find? (fun q : QEntry => q.id == qid) (q :: qs) =
          List.find? (fun q : QEntry => q.id == qid) qs :=
        List.find?_cons_of_neg _ (by simp [hq])
      rw [hL, hR]
      exact ih (n + 1)

/-- `getQuestionById`, projected to the question record, searches the
unnumbered shuffle outcome. -/
lemma getQuestionById_map_fst (qs : List QEntry) (qid : String) :
    (getQuestionById qs qid).map Prod.fst = qs.find? (fun q => q.id == qid) := by
  unfold getQuestionById numberQuestions
  rw [List.enum_eq_enumFrom]
  exact find?_enumFrom_number qid qs 0

/-- On any shuffle outcome, id lookup returns exactly what the canonical
catalog's search returns. -/
lemma getQuestionById_eq_canonical {qs : List QEntry} (qid : String)
    (h : qs.Perm canonicalQuestions) :
    (getQuestionById qs qid).map Prod.fst =
      canonicalQuestions.find? (fun q => q.id == qid) := by
  rw [getQuestionById_map_fst]
  apply find?_congr_of_unique _ h
  intro x hx y hy hpx hpy
  have hnd : (qs.map QEntry.id).Nodup := by
    rw [(h.map QEntry.id).nodup_iff, canonicalQuestions_map_id]
    exact canonicalIds_nodup
  rw [beq_iff_eq] at hpx hpy
  exact List.inj_on_of_nodup_map hnd hx hy (by rw [hpx, hpy])

/-- Claim C7: question lookup by id is stable against the canonical catalog
regardless of shuffling — across any two shuffle outcomes
`get_question_by_id` projects to the same record, that record is the
canonical catalog's entry for the id (hence its `question_text`, `domain`,
`type` and `domain_question_number` are the canonical ones), and the lookup
is `none` exactly when the id is not a canonical catalog id. -/
theorem claim_C7_lookup_stable (qs qs' : List QEntry) (qid : String)
    (h : qs.Perm canonicalQuestions) (h' : qs'.Perm canonicalQuestions) :
    (getQuestionById qs qid).map Prod.fst =
        canonicalQuestions.find? (fun q => q.id == qid)
    ∧ (getQuestionById qs qid).map Prod.fst =
        (getQuestionById qs' qid).map Prod.fst
    ∧ (getQuestionById qs qid = none ↔ qid ∉ canonicalIds) := by
  refine ⟨getQuestionById_eq_canonical qid h, ?_, ?_, ?_⟩
  · rw [getQuestionById_eq_canonical qid h, getQuestionById_eq_canonical qid h']
  · intro hn
    have h1 : canonicalQuestions.find? (fun q => q.id == qid) = none := by
      rw [← getQuestionById_eq_canonical qid h, hn]
      rfl
    rw [List.find?_eq_none] at h1
    intro hmem
    rw [← canonicalQuestions_map_id] at hmem
    obtain ⟨q, hq, hqid⟩ := List.mem_map.mp hmem
    exact h1 q hq (by rw [beq_iff_eq]; exact hqid)
  · intro hmem
    cases hg : getQuestionById qs qid with
    | none => rfl
    | some pr =>
      exfalso
      have hsome : (getQuestionById qs qid).map Prod.fst = some pr.1 := by
        rw [hg]
        rfl
      rw [getQuestionById_eq_canonical qid h] at hsome
      have hq := List.mem_of_find?_eq_some hsome
      have hpq := List.find?_some hsome
      simp only [beq_iff_eq] at hpq
      apply hmem
      rw [← canonicalQuestions_map_id]
      exact List.mem_map.mpr ⟨pr.1, hq, hpq⟩

/-- Witness for C7 at the identity shuffle and id "5". -/
theorem claim_C7_witness :
    (getQuestionById canonicalQuestions "5").map Prod.fst =
        canonicalQuestions.find? (fun q => q.id == "5")
    ∧ (getQuestionById canonicalQuestions "5").map Prod.fst =
        (getQuestionById canonicalQuestions "5").map Prod.fst
    ∧ (getQuestionById canonicalQuestions "5" = none ↔ "5" ∉ canonicalIds) :=
  claim_C7_lookup_stable canonicalQuestions canonicalQuestions "5"
    (List.Perm.refl _) (List.Perm.refl _)

end Kaliedo
